import Mathlib

/-!
Verification development for the jira-api-module repository.

The Python source is shallowly embedded: JSON documents become the
inductive `JVal` (objects are ordered association lists, matching
Python dict insertion order), Pydantic models become structures,
payload builders become pure functions, and raised exceptions become
`Except` results over an explicit exception datatype.  Python
truthiness tests on `Optional[str]` values (`if self.summary:`) are
embedded as "is `some s` with `s` non-empty"; truthiness on lists as
non-emptiness; truthiness on `Optional[int]` as "is `some c` with
`c ≠ 0`".
-/

namespace JiraSpec

/-- JSON values; objects keep field order, as Python dicts do. -/
inductive JVal where
  | null
  | bool (b : Bool)
  | num (n : Int)
  | str (s : String)
  | arr (elems : List JVal)
  | obj (fields : List (String × JVal))

/-- Look a key up in a JSON object (first occurrence wins); `none` on
non-objects and missing keys. -/
def JVal.lookupKey : JVal → String → Option JVal
  | .obj fs, k => fs.lookup k
  | _, _ => none

/-- Top-level keys of a JSON object (empty for non-objects). -/
def JVal.topKeys : JVal → List String
  | .obj fs => fs.map Prod.fst
  | _ => []

/-- Keys of the object stored under key `k` of `j` (empty when absent
or not an object). -/
def keysUnder (j : JVal) (k : String) : List String :=
  match j.lookupKey k with
  | some v => v.topKeys
  | none => []

/-- Atlassian Document Format wrapper for a plain string, exactly as
built inline in `IssueCreate.to_jira_format` and
`IssueUpdate.to_jira_format` (models/issue.py). -/
def adfDoc (s : String) : JVal :=
  .obj [("type", .str "doc"), ("version", .num 1),
        ("content", .arr [
          .obj [("type", .str "paragraph"),
                ("content", .arr [.obj [("type", .str "text"), ("text", .str s)]])]])]

/-- `IssueUpdate` (models/issue.py): a delta record. -/
structure IssueUpdate where
  summary : Option String
  description : Option String
  labels_add : List String
  labels_remove : List String
  priority_id : Option String
  deriving DecidableEq

/-- The conditional `summary` entry of the update dict
(`if self.summary: update["summary"] = [{"set": self.summary}]`). -/
def IssueUpdate.summaryField (u : IssueUpdate) : List (String × JVal) :=
  match u.summary with
  | some s => if s = "" then [] else [("summary", JVal.arr [.obj [("set", .str s)]])]
  | none => []

/-- The conditional `description` entry of the update dict; the value
is the ADF document wrapped in a set operation. -/
def IssueUpdate.descriptionField (u : IssueUpdate) : List (String × JVal) :=
  match u.description with
  | some s => if s = "" then [] else [("description", JVal.arr [.obj [("set", adfDoc s)]])]
  | none => []

/-- `label_operations`: add-ops first, then remove-ops, caller order
preserved (models/issue.py lines 148-152). -/
def IssueUpdate.labelOperations (u : IssueUpdate) : List JVal :=
  u.labels_add.map (fun l => JVal.obj [("add", .str l)]) ++
  u.labels_remove.map (fun l => JVal.obj [("remove", .str l)])

/-- The conditional `labels` entry (`if label_operations:`). -/
def IssueUpdate.labelsField (u : IssueUpdate) : List (String × JVal) :=
  if u.labelOperations.isEmpty then [] else [("labels", JVal.arr u.labelOperations)]

/-- The conditional `priority` entry
(`if self.priority_id: update["priority"] = [{"set": {"id": ...}}]`). -/
def IssueUpdate.priorityField (u : IssueUpdate) : List (String × JVal) :=
  match u.priority_id with
  | some s => if s = "" then [] else [("priority", JVal.arr [.obj [("set", .obj [("id", .str s)])]])]
  | none => []

/-- The `update` dict accumulated by `IssueUpdate.to_jira_format`
(models/issue.py lines 124-160): the four conditional inserts in
source order. -/
def IssueUpdate.updateOps (u : IssueUpdate) : List (String × JVal) :=
  u.summaryField ++ u.descriptionField ++ u.labelsField ++ u.priorityField

/-- `IssueUpdate.to_jira_format`: wraps the accumulated dict as
`{"update": ...}`. -/
def IssueUpdate.to_jira_format (u : IssueUpdate) : JVal :=
  .obj [("update", .obj u.updateOps)]

theorem updateOps_key_summary (u : IssueUpdate) :
    ("summary" ∈ u.updateOps.map Prod.fst) ↔ ∃ s, u.summary = some s ∧ s ≠ "" := by
  obtain ⟨os, od, la, lr, op⟩ := u
  simp only [IssueUpdate.updateOps, IssueUpdate.summaryField, IssueUpdate.descriptionField,
             IssueUpdate.labelsField, IssueUpdate.priorityField,
             List.map_append, List.mem_append]
  rcases os with _ | s <;> rcases od with _ | d <;> rcases op with _ | p <;>
    split_ifs <;> simp_all

theorem updateOps_key_description (u : IssueUpdate) :
    ("description" ∈ u.updateOps.map Prod.fst) ↔ ∃ s, u.description = some s ∧ s ≠ "" := by
  obtain ⟨os, od, la, lr, op⟩ := u
  simp only [IssueUpdate.updateOps, IssueUpdate.summaryField, IssueUpdate.descriptionField,
             IssueUpdate.labelsField, IssueUpdate.priorityField,
             List.map_append, List.mem_append]
  rcases os with _ | s <;> rcases od with _ | d <;> rcases op with _ | p <;>
    split_ifs <;> simp_all

theorem updateOps_key_labels (u : IssueUpdate) :
    ("labels" ∈ u.updateOps.map Prod.fst) ↔ ¬(u.labels_add = [] ∧ u.labels_remove = []) := by
  obtain ⟨os, od, la, lr, op⟩ := u
  simp only [IssueUpdate.updateOps, IssueUpdate.summaryField, IssueUpdate.descriptionField,
             IssueUpdate.labelsField, IssueUpdate.priorityField, IssueUpdate.labelOperations,
             List.map_append, List.mem_append]
  rcases os with _ | s <;> rcases od with _ | d <;> rcases op with _ | p <;>
    split_ifs <;> simp_all

theorem updateOps_key_priority (u : IssueUpdate) :
    ("priority" ∈ u.updateOps.map Prod.fst) ↔ ∃ s, u.priority_id = some s ∧ s ≠ "" := by
  obtain ⟨os, od, la, lr, op⟩ := u
  simp only [IssueUpdate.updateOps, IssueUpdate.summaryField, IssueUpdate.descriptionField,
             IssueUpdate.labelsField, IssueUpdate.priorityField,
             List.map_append, List.mem_append]
  rcases os with _ | s <;> rcases od with _ | d <;> rcases op with _ | p <;>
    split_ifs <;> simp_all

theorem keysUnder_update (u : IssueUpdate) :
    keysUnder u.to_jira_format "update" = u.updateOps.map Prod.fst := by
  simp [keysUnder, IssueUpdate.to_jira_format, JVal.lookupKey, JVal.topKeys, List.lookup]

/-- `IssueCreate` (models/issue.py): write-only construction record. -/
structure IssueCreate where
  project_id : String
  summary : String
  description : Option String
  issue_type_id : String
  priority_id : Option String
  assignee_account_id : Option String
  reporter_account_id : Option String
  labels : List String
  deriving DecidableEq

/-- A conditional single-entry dict insert guarded by Python string
truthiness (`if self.x: fields[k] = mk x`). -/
def optStrField (k : String) (v : Option String) (mk : String → JVal) : List (String × JVal) :=
  match v with
  | some s => if s = "" then [] else [(k, mk s)]
  | none => []

/-- The `fields` dict accumulated by `IssueCreate.to_jira_format`
(models/issue.py lines 79-112): mandatory project/summary/issuetype
entries followed by the five conditional inserts, in source order. -/
def IssueCreate.fieldsList (c : IssueCreate) : List (String × JVal) :=
  [("project", .obj [("id", .str c.project_id)]),
   ("summary", .str c.summary),
   ("issuetype", .obj [("id", .str c.issue_type_id)])] ++
  optStrField "description" c.description adfDoc ++
  optStrField "priority" c.priority_id (fun s => .obj [("id", .str s)]) ++
  optStrField "assignee" c.assignee_account_id (fun s => .obj [("accountId", .str s)]) ++
  optStrField "reporter" c.reporter_account_id (fun s => .obj [("accountId", .str s)]) ++
  (if c.labels.isEmpty then [] else [("labels", JVal.arr (c.labels.map JVal.str))])

/-- `IssueCreate.to_jira_format`: wraps the accumulated dict as
`{"fields": ...}`. -/
def IssueCreate.to_jira_format (c : IssueCreate) : JVal :=
  .obj [("fields", .obj c.fieldsList)]

/-- `IssueAssignment` (models/issue.py): `account_id = None` means
unassign. -/
structure IssueAssignment where
  account_id : Option String
  deriving DecidableEq

/-- `IssueAssignment.to_jira_format` (models/issue.py lines 212-216):
`if self.account_id:` is a truthiness test, so `None` and `""` both
fall through to the unassign payload. -/
def IssueAssignment.to_jira_format (a : IssueAssignment) : JVal :=
  match a.account_id with
  | some s => if s = "" then .obj [("accountId", .null)] else .obj [("accountId", .str s)]
  | none => .obj [("accountId", .null)]

/-- `IssueTransitionRequest` (models/issue.py): consumed by
`transition_issue`. -/
structure IssueTransitionRequest where
  transition_id : String
  comment : Option String
  resolution_name : Option String
  deriving DecidableEq

/-- The exception classes of exceptions.py, distinguished by class. -/
inductive ErrKind where
  | base
  | auth
  | perm
  | notFound
  | validation
  | rateLimit
  | server
  | sdk
  deriving DecidableEq

/-- An exception value: its class, `message`, and `status_code`. -/
structure JiraAPIError where
  kind : ErrKind
  message : String
  statusCode : Option Nat
  deriving DecidableEq

/-- `JiraAPIError(message, status_code)` base-class constructor. -/
def mkJiraAPIError (m : String) (code : Option Nat) : JiraAPIError := ⟨.base, m, code⟩

/-- `JiraAuthenticationError(message)`: fixed status 401. -/
def mkJiraAuthenticationError (m : String) : JiraAPIError := ⟨.auth, m, some 401⟩

/-- `JiraPermissionError(message)`: fixed status 403. -/
def mkJiraPermissionError (m : String) : JiraAPIError := ⟨.perm, m, some 403⟩

/-- `JiraNotFoundError(message)`: fixed status 404. -/
def mkJiraNotFoundError (m : String) : JiraAPIError := ⟨.notFound, m, some 404⟩

/-- `JiraValidationError(message)`: fixed status 400. -/
def mkJiraValidationError (m : String) : JiraAPIError := ⟨.validation, m, some 400⟩

/-- `JiraRateLimitError(message)`: fixed status 429. -/
def mkJiraRateLimitError (m : String) : JiraAPIError := ⟨.rateLimit, m, some 429⟩

/-- `JiraServerError(message)`: fixed status 500. -/
def mkJiraServerError (m : String) : JiraAPIError := ⟨.server, m, some 500⟩

/-- `SDKError(message, status_code)`. -/
def mkSDKError (m : String) (code : Option Nat) : JiraAPIError := ⟨.sdk, m, code⟩

/-- `__str__` of the exception classes: `SDKError` defines its own
with the "SDK Error" text; every `JiraAPIError` subclass inherits the
base `__str__` with the fixed "JIRA API Error" text.  The
`if self.status_code:` truthiness test drops a zero code. -/
def strRepr (e : JiraAPIError) : String :=
  let pfx := if e.kind = ErrKind.sdk then "SDK Error" else "JIRA API Error"
  match e.statusCode with
  | some c => if c = 0 then pfx ++ ": " ++ e.message
              else pfx ++ " (" ++ toString c ++ "): " ++ e.message
  | none => pfx ++ ": " ++ e.message

/-- A raised Python exception: either one of the library's exception
objects, or a built-in `ValueError` (raised by the service layer). -/
inductive PyExc where
  | valueErr (msg : String)
  | jira (e : JiraAPIError)
  deriving DecidableEq

/-- The body of an HTTP response as seen by `_make_request`: empty
content, content that parses as JSON, or non-empty content whose JSON
parse raises an exception with the given text. -/
inductive RespBody where
  | empty
  | json (j : JVal)
  | malformed (errText : String)

/-- An HTTP response: status code plus body. -/
structure HttpResponse where
  status : Nat
  body : RespBody

/-- The message-extraction attempt shared by the 400 and generic-4xx
branches of `_make_request`: `response.json()` must succeed, the
result must carry an `errorMessages` entry holding a list of strings,
and then the strings are joined with "; "; any failure along the way
leaves the fallback message in place (`except Exception: pass`).
First, joining a JSON array succeeds exactly when every element is a
string (`"; ".join` raises `TypeError` otherwise): -/
def decodeStrings : List JVal → Option (List String)
  | [] => some []
  | JVal.str s :: rest => (decodeStrings rest).map (fun ss => s :: ss)
  | _ => none

/-- The extraction itself; a JSON-string value joins its characters
and a JSON-object value joins its keys, as Python's `str.join` does
on those iterables. -/
def extractErrorMsg (fallback : String) (b : RespBody) : String :=
  match b with
  | .json (.obj fs) =>
    match fs.lookup "errorMessages" with
    | some (.arr xs) =>
      match decodeStrings xs with
      | some ss => String.intercalate "; " ss
      | none => fallback
    | some (.str s) => String.intercalate "; " (s.data.map (fun ch => String.mk [ch]))
    | some (.obj gs) => String.intercalate "; " (gs.map Prod.fst)
    | _ => fallback
  | _ => fallback

/-- Status classification of `JiraClient._make_request`
(core/client.py lines 115-164): the `elif` chain in source order,
then the 204/empty-body success case, then the JSON parse of the
body. -/
def make_request (r : HttpResponse) : Except PyExc JVal :=
  if r.status = 401 then
    .error (.jira (mkJiraAuthenticationError "Invalid credentials or expired token"))
  else if r.status = 403 then
    .error (.jira (mkJiraPermissionError "Insufficient permissions for this operation"))
  else if r.status = 404 then
    .error (.jira (mkJiraNotFoundError "Resource not found"))
  else if r.status = 400 then
    .error (.jira (mkJiraValidationError (extractErrorMsg "Bad request" r.body)))
  else if r.status = 429 then
    .error (.jira (mkJiraRateLimitError "Rate limit exceeded"))
  else if r.status ≥ 500 then
    .error (.jira (mkJiraServerError ("Server error: " ++ toString r.status)))
  else if r.status ≥ 400 then
    .error (.jira (mkJiraAPIError (extractErrorMsg ("HTTP " ++ toString r.status) r.body)
      (some r.status)))
  else match r.body with
    | .empty => .ok (.obj [])
    | .json j => if r.status = 204 then .ok (.obj []) else .ok j
    | .malformed t =>
      if r.status = 204 then .ok (.obj [])
      else .error (.jira (mkJiraAPIError ("Failed to parse response JSON: " ++ t) none))

/-- ASCII lowercasing of one character, as `str.lower()` acts on the
character range this repository's names use. -/
def lowerChar (c : Char) : Char :=
  if 65 ≤ c.toNat ∧ c.toNat ≤ 90 then Char.ofNat (c.toNat + 32) else c

/-- Python `str.lower()`, character-wise (the full Unicode case table
is irrelevant to the embedded comparisons). -/
def pyLower (s : String) : String := ⟨s.data.map lowerChar⟩

/-- A raw issue-type entry as consumed by
`get_issue_type_id_by_name`: a JSON dict whose `name` may be absent
(`issue_type.get("name", "")`); `id` is accessed unconditionally. -/
structure RawIssueType where
  id : String
  name : Option String
  deriving DecidableEq

/-- `JiraClient.get_issue_type_id_by_name` (core/client.py lines
397-421), parameterised by the project's issue-type list that
`get_project_issue_types` would have returned: first case-insensitive
match wins; no match raises `JiraValidationError` listing the
available names comma-joined, in order, in original case. -/
def get_issue_type_id_by_name (project_key : String) (issue_types : List RawIssueType)
    (issue_type_name : String) : Except PyExc String :=
  match issue_types.find? (fun it => pyLower (it.name.getD "") == pyLower issue_type_name) with
  | some it => .ok it.id
  | none =>
    .error (.jira (mkJiraValidationError
      ("Issue type \x27" ++ issue_type_name ++ "\x27 not found in project \x27" ++ project_key ++
       "\x27. Available types: " ++
       String.intercalate ", " (issue_types.map (fun it => it.name.getD "")))))

/-- `IssueTransition` (models/issue.py): only `id` and `name` are
consulted by name resolution (the `to` status and `has_screen` flag
are never read there). -/
structure IssueTransition where
  id : String
  name : String
  deriving DecidableEq

/-- `IssueService.transition_issue_by_name` (services/issue_service.py
lines 200-239), parameterised by the live transition list: the loop
takes the first case-insensitive name match; `if not transition_id:`
is a truthiness test, so no match (and a matched empty id) raises a
built-in `ValueError` listing the available transition names; on
success the `IssueTransitionRequest` is built and posted. -/
def transition_issue_by_name (transitions : List IssueTransition)
    (transition_name : String) (comment resolution_name : Option String) :
    Except PyExc IssueTransitionRequest :=
  let found := (transitions.find? (fun t => pyLower t.name == pyLower transition_name)).map
    (fun t => t.id)
  match found with
  | some tid =>
    if tid = "" then
      .error (.valueErr ("Transition \x27" ++ transition_name ++
        "\x27 not found. Available transitions: " ++
        String.intercalate ", " (transitions.map (fun t => t.name))))
    else
      .ok ⟨tid, comment, resolution_name⟩
  | none =>
    .error (.valueErr ("Transition \x27" ++ transition_name ++
      "\x27 not found. Available transitions: " ++
      String.intercalate ", " (transitions.map (fun t => t.name))))

/-- `User` (models/user.py): only `account_id` and `email_address`
are consulted by the embedded operations. -/
structure User where
  account_id : String
  email_address : Option String
  deriving DecidableEq

/-- `UserService.get_user_by_email` (services/user_service.py lines
31-47), parameterised by the result list of `search_users(email,
max_results=1)`: the first result whose email is truthy and matches
case-insensitively, else `None`. -/
def get_user_by_email (searchResults : List User) (email : String) : Option User :=
  searchResults.find? (fun u =>
    match u.email_address with
    | some e => e != "" && pyLower e == pyLower email
    | none => false)

/-- `IssueService.create_issue` (services/issue_service.py lines
29-69), parameterised by the user-search result list: a truthy
`assignee_email` triggers the email lookup, a found user supplies the
account id, an unresolved lookup silently leaves it `None`; the
`IssueCreate` record is then built (reporter never set, `labels or
[]`) and handed to the client.  The body contains no `raise`. -/
def service_create_issue (searchResults : List User) (project_id summary issue_type_id : String)
    (description priority_id assignee_email : Option String)
    (labels : Option (List String)) : Except PyExc IssueCreate :=
  let assignee_account_id :=
    match assignee_email with
    | some em =>
      if em = "" then none
      else (get_user_by_email searchResults em).map (fun u => u.account_id)
    | none => none
  .ok ⟨project_id, summary, description, issue_type_id, priority_id,
       assignee_account_id, none, labels.getD []⟩

/-- `IssueService.assign_issue_by_email` (services/issue_service.py
lines 166-178), parameterised by the user-search result list: an
unresolved email raises a built-in `ValueError`; otherwise the
assignment payload is built from the found user's account id. -/
def assign_issue_by_email (searchResults : List User) (assignee_email : String) :
    Except PyExc IssueAssignment :=
  match get_user_by_email searchResults assignee_email with
  | none => .error (.valueErr ("User with email \x27" ++ assignee_email ++ "\x27 not found"))
  | some u => .ok ⟨some u.account_id⟩

/-- `find?` returns the entry at index `i` when it satisfies the
predicate and every earlier entry does not. -/
theorem find?_first {α : Type} (p : α → Bool) :
    ∀ (l : List α) (i : Nat) (hi : i < l.length),
      p (l.get ⟨i, hi⟩) = true →
      (∀ (j : Nat) (hj : j < l.length), j < i → p (l.get ⟨j, hj⟩) = false) →
      l.find? p = some (l.get ⟨i, hi⟩)
  | [], i, hi, _, _ => absurd hi (by simp)
  | a :: as, 0, _, hp, _ => List.find?_cons_of_pos _ hp
  | a :: as, (i+1), hi, hp, hmin => by
    have ha : p a = false := hmin 0 (by simp) (Nat.succ_pos _)
    rw [List.find?_cons_of_neg _ (by simp [ha])]
    exact find?_first p as i (Nat.lt_of_succ_lt_succ hi) hp
      (fun j hj hji => hmin (j + 1) (by simpa using Nat.succ_lt_succ hj)
        (Nat.succ_lt_succ hji))

/-- C1: an `IssueUpdate` with summary, description and priority unset
and both label lists empty generates the payload whose `update`
object is empty — no field keys at all. -/
theorem C1_empty_delta_empty_update (u : IssueUpdate) (hs : u.summary = none)
    (hd : u.description = none) (hp : u.priority_id = none)
    (ha : u.labels_add = []) (hr : u.labels_remove = []) :
    u.to_jira_format = JVal.obj [("update", JVal.obj [])] := by
  obtain ⟨os, od, la, lr, op⟩ := u
  simp only at hs hd hp ha hr
  subst hs hd hp ha hr
  rfl

/-- Witness for C1 at the all-unset record. -/
theorem C1_empty_delta_empty_update_witness :
    (IssueUpdate.mk none none [] [] none).to_jira_format = JVal.obj [("update", JVal.obj [])] :=
  C1_empty_delta_empty_update ⟨none, none, [], [], none⟩ rfl rfl rfl rfl rfl

/-- C5: every field left unset (`None` summary/description/priority,
and labels when both delta lists are empty) never appears as a key of
the generated `update` object. -/
theorem C5_unset_fields_absent (u : IssueUpdate) :
    (u.summary = none → "summary" ∉ keysUnder u.to_jira_format "update") ∧
    (u.description = none → "description" ∉ keysUnder u.to_jira_format "update") ∧
    (u.priority_id = none → "priority" ∉ keysUnder u.to_jira_format "update") ∧
    (u.labels_add = [] → u.labels_remove = [] →
      "labels" ∉ keysUnder u.to_jira_format "update") := by
  rw [keysUnder_update]
  refine ⟨fun h hmem => ?_, fun h hmem => ?_, fun h hmem => ?_, fun h1 h2 hmem => ?_⟩
  · obtain ⟨s, heq, -⟩ := (updateOps_key_summary u).mp hmem
    rw [h] at heq; cases heq
  · obtain ⟨s, heq, -⟩ := (updateOps_key_description u).mp hmem
    rw [h] at heq; cases heq
  · obtain ⟨s, heq, -⟩ := (updateOps_key_priority u).mp hmem
    rw [h] at heq; cases heq
  · exact (updateOps_key_labels u).mp hmem ⟨h1, h2⟩

/-- Witness for C5 at a record leaving everything unset. -/
theorem C5_unset_fields_absent_witness :
    "summary" ∉ keysUnder (IssueUpdate.mk none none [] [] none).to_jira_format "update" ∧
    "description" ∉ keysUnder (IssueUpdate.mk none none [] [] none).to_jira_format "update" ∧
    "priority" ∉ keysUnder (IssueUpdate.mk none none [] [] none).to_jira_format "update" ∧
    "labels" ∉ keysUnder (IssueUpdate.mk none none [] [] none).to_jira_format "update" :=
  ⟨(C5_unset_fields_absent ⟨none, none, [], [], none⟩).1 rfl,
   (C5_unset_fields_absent ⟨none, none, [], [], none⟩).2.1 rfl,
   (C5_unset_fields_absent ⟨none, none, [], [], none⟩).2.2.1 rfl,
   (C5_unset_fields_absent ⟨none, none, [], [], none⟩).2.2.2 rfl rfl⟩

/-- C9: setting summary, description or priority to the empty string
is indistinguishable from leaving it unset — the payload builder
tests truthiness, so the key is omitted and the whole payload equals
the one generated with the field unset. -/
theorem C9_empty_string_like_unset (u : IssueUpdate) :
    (({u with summary := some ""} : IssueUpdate).to_jira_format =
       ({u with summary := none} : IssueUpdate).to_jira_format ∧
     ({u with description := some ""} : IssueUpdate).to_jira_format =
       ({u with description := none} : IssueUpdate).to_jira_format ∧
     ({u with priority_id := some ""} : IssueUpdate).to_jira_format =
       ({u with priority_id := none} : IssueUpdate).to_jira_format) ∧
    ("summary" ∉ keysUnder ({u with summary := some ""} : IssueUpdate).to_jira_format "update" ∧
     "description" ∉
       keysUnder ({u with description := some ""} : IssueUpdate).to_jira_format "update" ∧
     "priority" ∉
       keysUnder ({u with priority_id := some ""} : IssueUpdate).to_jira_format "update") := by
  obtain ⟨os, od, la, lr, op⟩ := u
  refine ⟨⟨rfl, ?_, ?_⟩, fun hmem => ?_, fun hmem => ?_, fun hmem => ?_⟩
  · simp [IssueUpdate.to_jira_format, IssueUpdate.updateOps, IssueUpdate.summaryField,
          IssueUpdate.descriptionField, IssueUpdate.labelsField, IssueUpdate.priorityField,
          IssueUpdate.labelOperations]
  · simp [IssueUpdate.to_jira_format, IssueUpdate.updateOps, IssueUpdate.summaryField,
          IssueUpdate.descriptionField, IssueUpdate.labelsField, IssueUpdate.priorityField,
          IssueUpdate.labelOperations]
  · rw [keysUnder_update] at hmem
    obtain ⟨s, heq, hne⟩ := (updateOps_key_summary _).mp hmem
    exact hne (Option.some_injective _ heq.symm)
  · rw [keysUnder_update] at hmem
    obtain ⟨s, heq, hne⟩ := (updateOps_key_description _).mp hmem
    exact hne (Option.some_injective _ heq.symm)
  · rw [keysUnder_update] at hmem
    obtain ⟨s, heq, hne⟩ := (updateOps_key_priority _).mp hmem
    exact hne (Option.some_injective _ heq.symm)

/-- C7: the assignment payload builder sends a present non-empty
account id as `{"accountId": id}` and the unassign case as
`{"accountId": null}`, and the two payloads never coincide. -/
theorem C7_assignment_payloads (a : String) (ha : a ≠ "") :
    (IssueAssignment.mk (some a)).to_jira_format = JVal.obj [("accountId", JVal.str a)] ∧
    (IssueAssignment.mk none).to_jira_format = JVal.obj [("accountId", JVal.null)] ∧
    (IssueAssignment.mk (some a)).to_jira_format ≠ (IssueAssignment.mk none).to_jira_format := by
  refine ⟨?_, rfl, ?_⟩
  · simp [IssueAssignment.to_jira_format, ha]
  · simp [IssueAssignment.to_jira_format, ha]

/-- Witness for C7 at account id "X". -/
theorem C7_assignment_payloads_witness :
    (IssueAssignment.mk (some "X")).to_jira_format = JVal.obj [("accountId", JVal.str "X")] ∧
    (IssueAssignment.mk none).to_jira_format = JVal.obj [("accountId", JVal.null)] ∧
    (IssueAssignment.mk (some "X")).to_jira_format ≠ (IssueAssignment.mk none).to_jira_format :=
  C7_assignment_payloads "X" (by decide)

/-- C8 counterexample: the renderings of two default-constructed
errors of distinct kinds (authentication vs permission) both begin
with the same fixed 14-character token "JIRA API Error" — the token
in the kind position is a constant, so the rendering is not of the
form "<Kind> (<code>): <message>" with <Kind> identifying the failure
kind. -/
theorem C8_counterexample :
    strRepr (mkJiraAuthenticationError "Authentication failed") =
      "JIRA API Error (401): Authentication failed" ∧
    strRepr (mkJiraPermissionError "Permission denied") =
      "JIRA API Error (403): Permission denied" ∧
    (mkJiraAuthenticationError "Authentication failed").kind ≠
      (mkJiraPermissionError "Permission denied").kind ∧
    (strRepr (mkJiraAuthenticationError "Authentication failed")).take 14 =
      (strRepr (mkJiraPermissionError "Permission denied")).take 14 := by
  refine ⟨rfl, rfl, by decide, rfl⟩

/-- C8 amended: every error value renders as
"JIRA API Error (<code>): <message>" when a (non-zero) status code is
present, else "JIRA API Error: <message>" — a fixed prefix that does
not name the specific failure kind (the separate SDK error class uses
the fixed prefix "SDK Error"). -/
theorem C8_render_uniform_format (k : ErrKind) (m : String) (c : Nat) (hc : c ≠ 0) :
    strRepr ⟨k, m, some c⟩ =
      (if k = ErrKind.sdk then "SDK Error" else "JIRA API Error") ++
        " (" ++ toString c ++ "): " ++ m ∧
    strRepr ⟨k, m, none⟩ =
      (if k = ErrKind.sdk then "SDK Error" else "JIRA API Error") ++ ": " ++ m := by
  constructor <;> simp [strRepr, hc]

/-- Witness for the amended C8 at the authentication error default. -/
theorem C8_render_uniform_format_witness :
    strRepr ⟨ErrKind.auth, "Authentication failed", some 401⟩ =
      (if ErrKind.auth = ErrKind.sdk then "SDK Error" else "JIRA API Error") ++
        " (" ++ toString 401 ++ "): " ++ "Authentication failed" ∧
    strRepr ⟨ErrKind.auth, "Authentication failed", none⟩ =
      (if ErrKind.auth = ErrKind.sdk then "SDK Error" else "JIRA API Error") ++
        ": " ++ "Authentication failed" :=
  C8_render_uniform_format ErrKind.auth "Authentication failed" 401 (by decide)

/-- The description entry of a create payload: looking up `fields`
then `description`. -/
def fieldValue (j : JVal) (outer k : String) : Option JVal :=
  (j.lookupKey outer).bind (fun f => f.lookupKey k)

/-- C6: the rich-text encoding of a non-empty string is exactly the
single-paragraph ADF document, and it is what both the create payload
(under `fields.description`) and the update payload (under
`update.description`, wrapped in a set operation) carry. -/
theorem C6_adf_exact_shape (s : String) (hs : s ≠ "") :
    adfDoc s = JVal.obj [("type", JVal.str "doc"), ("version", JVal.num 1),
      ("content", JVal.arr [
        JVal.obj [("type", JVal.str "paragraph"),
                  ("content", JVal.arr [JVal.obj [("type", JVal.str "text"),
                                                  ("text", JVal.str s)]])]])] ∧
    (∀ c : IssueCreate, c.description = some s →
      fieldValue c.to_jira_format "fields" "description" = some (adfDoc s)) ∧
    (∀ u : IssueUpdate, u.description = some s →
      fieldValue u.to_jira_format "update" "description" =
        some (JVal.arr [JVal.obj [("set", adfDoc s)]])) := by
  refine ⟨rfl, fun c hc => ?_, fun u hu => ?_⟩
  · obtain ⟨pid, summ, desc, tid, prio, asg, rep, labels⟩ := c
    simp only at hc
    subst hc
    simp [fieldValue, IssueCreate.to_jira_format, IssueCreate.fieldsList, optStrField,
          JVal.lookupKey, List.lookup, hs]
  · obtain ⟨os, od, la, lr, op⟩ := u
    simp only at hu
    subst hu
    rcases os with _ | t
    · simp [fieldValue, IssueUpdate.to_jira_format, IssueUpdate.updateOps,
            IssueUpdate.summaryField, IssueUpdate.descriptionField, JVal.lookupKey,
            List.lookup, hs]
    · by_cases ht : t = "" <;>
        simp [fieldValue, IssueUpdate.to_jira_format, IssueUpdate.updateOps,
              IssueUpdate.summaryField, IssueUpdate.descriptionField, JVal.lookupKey,
              List.lookup, hs, ht]

/-- Witness for C6 at the string "Test description". -/
theorem C6_adf_exact_shape_witness :
    fieldValue (IssueCreate.mk "10000" "Test issue" (some "Test description") "10001"
        none none none []).to_jira_format "fields" "description" =
      some (adfDoc "Test description") ∧
    fieldValue (IssueUpdate.mk none (some "Test description") [] [] none).to_jira_format
        "update" "description" =
      some (JVal.arr [JVal.obj [("set", adfDoc "Test description")]]) := by
  have h := C6_adf_exact_shape "Test description" (by decide)
  exact ⟨h.2.1 ⟨"10000", "Test issue", some "Test description", "10001",
                none, none, none, []⟩ rfl,
         h.2.2 ⟨none, some "Test description", [], [], none⟩ rfl⟩

/-- The `assignee` key appears in a create payload exactly when the
assignee account id passes its truthiness test. -/
theorem create_key_assignee (c : IssueCreate) :
    ("assignee" ∈ keysUnder c.to_jira_format "fields") ↔
      ∃ s, c.assignee_account_id = some s ∧ s ≠ "" := by
  obtain ⟨pid, summ, desc, tid, prio, asg, rep, labels⟩ := c
  simp only [keysUnder, IssueCreate.to_jira_format, IssueCreate.fieldsList, optStrField,
             JVal.lookupKey, JVal.topKeys, List.lookup, List.map_append, List.mem_append]
  rcases desc with _ | d <;> rcases prio with _ | p <;> rcases asg with _ | a <;>
    rcases rep with _ | rp <;> split_ifs <;> simp_all

/-- C10: when the assignee email lookup resolves to no user, the
service-level create still succeeds — the `IssueCreate` record
carries no assignee account id and the create payload omits the
`assignee` key — while `assign_issue_by_email` raises a `ValueError`
in the same situation. -/
theorem C10_unresolved_assignee_dropped (searchResults : List User) (em : String)
    (hem : em ≠ "") (hnone : get_user_by_email searchResults em = none)
    (pid summ tid : String) (desc prio : Option String) (labels : Option (List String)) :
    (∃ ic : IssueCreate,
      service_create_issue searchResults pid summ tid desc prio (some em) labels = .ok ic ∧
      ic.assignee_account_id = none ∧
      "assignee" ∉ keysUnder ic.to_jira_format "fields") ∧
    assign_issue_by_email searchResults em =
      .error (.valueErr ("User with email \x27" ++ em ++ "\x27 not found")) := by
  constructor
  · refine ⟨⟨pid, summ, desc, tid, prio, none, none, labels.getD []⟩, ?_, rfl, ?_⟩
    · simp [service_create_issue, hem, hnone]
    · intro hmem
      obtain ⟨s, heq, -⟩ := (create_key_assignee _).mp hmem
      cases heq
  · simp [assign_issue_by_email, hnone]

/-- Witness for C10: the search for "ghost@example.com" returns one
user with a different address, so the lookup fails; the create
payload omits the assignee and the assign-by-email path errors. -/
theorem C10_unresolved_assignee_dropped_witness :
    (∃ ic : IssueCreate,
      service_create_issue [⟨"acc-1", some "alice@example.com"⟩] "10000" "Test issue" "10001"
          none none (some "ghost@example.com") none = .ok ic ∧
      ic.assignee_account_id = none ∧
      "assignee" ∉ keysUnder ic.to_jira_format "fields") ∧
    assign_issue_by_email [⟨"acc-1", some "alice@example.com"⟩] "ghost@example.com" =
      .error (.valueErr ("User with email \x27ghost@example.com\x27 not found")) :=
  C10_unresolved_assignee_dropped [⟨"acc-1", some "alice@example.com"⟩] "ghost@example.com"
    (by decide) (by decide) "10000" "Test issue" "10001" none none none

/-- C4: issue-type-by-name resolution returns the id of the first
type whose name matches case-insensitively — on the demo list, "bug",
"Bug" and "BUG" each resolve to "10004" — and with no match it raises
`JiraValidationError` whose message carries the available names in
original case, comma-joined, in list order ("Epic, Bug" on the demo
list). -/
theorem C4_issue_type_by_name (pk q : String) (types : List RawIssueType) :
    (get_issue_type_id_by_name "PROJ"
        [⟨"10000", some "Epic"⟩, ⟨"10004", some "Bug"⟩] "bug" = .ok "10004" ∧
     get_issue_type_id_by_name "PROJ"
        [⟨"10000", some "Epic"⟩, ⟨"10004", some "Bug"⟩] "Bug" = .ok "10004" ∧
     get_issue_type_id_by_name "PROJ"
        [⟨"10000", some "Epic"⟩, ⟨"10004", some "Bug"⟩] "BUG" = .ok "10004") ∧
    (∀ (i : Nat) (hi : i < types.length),
      pyLower ((types.get ⟨i, hi⟩).name.getD "") = pyLower q →
      (∀ (j : Nat) (hj : j < types.length), j < i →
        pyLower ((types.get ⟨j, hj⟩).name.getD "") ≠ pyLower q) →
      get_issue_type_id_by_name pk types q = .ok (types.get ⟨i, hi⟩).id) ∧
    ((∀ it ∈ types, pyLower (it.name.getD "") ≠ pyLower q) →
      get_issue_type_id_by_name pk types q = .error (.jira (mkJiraValidationError
        ("Issue type \x27" ++ q ++ "\x27 not found in project \x27" ++ pk ++
         "\x27. Available types: " ++
         String.intercalate ", " (types.map (fun it => it.name.getD "")))))) ∧
    get_issue_type_id_by_name "PROJ"
        [⟨"10000", some "Epic"⟩, ⟨"10004", some "Bug"⟩] "Feature" =
      .error (.jira (mkJiraValidationError
        ("Issue type \x27Feature\x27 not found in project \x27PROJ\x27. Available types: " ++
         "Epic, Bug"))) := by
  refine ⟨⟨rfl, rfl, rfl⟩, fun i hi hp hmin => ?_, fun hnone => ?_, rfl⟩
  · unfold get_issue_type_id_by_name
    rw [find?_first _ types i hi (by simpa using hp)
      (fun j hj hji => by simpa using hmin j hj hji)]
  · unfold get_issue_type_id_by_name
    rw [List.find?_eq_none.mpr (fun it hit => by simpa using hnone it hit)]

/-- Witness for C4: on the demo list, "Epic" is the first
case-insensitive match for "epic", and "Feature" matches nothing. -/
theorem C4_issue_type_by_name_witness :
    get_issue_type_id_by_name "PROJ"
        [⟨"10000", some "Epic"⟩, ⟨"10004", some "Bug"⟩] "epic" = .ok "10000" ∧
    get_issue_type_id_by_name "PROJ"
        [⟨"10000", some "Epic"⟩, ⟨"10004", some "Bug"⟩] "Feature" =
      .error (.jira (mkJiraValidationError
        ("Issue type \x27Feature\x27 not found in project \x27PROJ\x27. Available types: " ++
         String.intercalate ", "
           (([⟨"10000", some "Epic"⟩, ⟨"10004", some "Bug"⟩] : List RawIssueType).map
             (fun it => it.name.getD ""))))) := by
  constructor
  · exact (C4_issue_type_by_name "PROJ" "epic"
        [⟨"10000", some "Epic"⟩, ⟨"10004", some "Bug"⟩]).2.1 0 (by decide) (by decide)
      (fun j hj hji => absurd hji (by omega))
  · exact (C4_issue_type_by_name "PROJ" "Feature"
        [⟨"10000", some "Epic"⟩, ⟨"10004", some "Bug"⟩]).2.2.1 (by decide)

/-- C3 counterexample: on a one-transition list with no match for
"Foo", transition resolution raises a built-in `ValueError`, while
issue-type resolution in the same no-match situation raises
`JiraValidationError` (the InvalidInput kind) — the two failures are
of different kinds, refuting "the same kind of failure". -/
theorem C3_counterexample :
    transition_issue_by_name [⟨"31", "Done"⟩] "Foo" none none =
      .error (.valueErr ("Transition \x27Foo\x27 not found. Available transitions: Done")) ∧
    get_issue_type_id_by_name "PROJ" [⟨"10000", some "Task"⟩] "Foo" =
      .error (.jira (mkJiraValidationError
        ("Issue type \x27Foo\x27 not found in project \x27PROJ\x27. Available types: Task"))) ∧
    PyExc.valueErr ("Transition \x27Foo\x27 not found. Available transitions: Done") ≠
      PyExc.jira (mkJiraValidationError
        ("Issue type \x27Foo\x27 not found in project \x27PROJ\x27. Available types: Task")) := by
  refine ⟨rfl, rfl, by simp⟩

/-- C3 amended: transition-by-name resolution matches the requested
name case-insensitively against the live transition list and takes
the first match (provided its id is non-empty, per the truthiness
re-check); when no transition matches it fails with a built-in
`ValueError` — not with the InvalidInput kind used by issue-type
resolution — whose message enumerates all available transition names
comma-joined, in list order. -/
theorem C3_transition_by_name (q : String) (transitions : List IssueTransition)
    (comment resolution_name : Option String) :
    (∀ (i : Nat) (hi : i < transitions.length),
      pyLower (transitions.get ⟨i, hi⟩).name = pyLower q →
      (∀ (j : Nat) (hj : j < transitions.length), j < i →
        pyLower (transitions.get ⟨j, hj⟩).name ≠ pyLower q) →
      (transitions.get ⟨i, hi⟩).id ≠ "" →
      transition_issue_by_name transitions q comment resolution_name =
        .ok ⟨(transitions.get ⟨i, hi⟩).id, comment, resolution_name⟩) ∧
    ((∀ t ∈ transitions, pyLower t.name ≠ pyLower q) →
      transition_issue_by_name transitions q comment resolution_name =
        .error (.valueErr ("Transition \x27" ++ q ++
          "\x27 not found. Available transitions: " ++
          String.intercalate ", " (transitions.map (fun t => t.name))))) := by
  constructor
  · intro i hi hp hmin hid
    unfold transition_issue_by_name
    rw [find?_first _ transitions i hi (by simpa using hp)
      (fun j hj hji => by simpa using hmin j hj hji)]
    simp only [Option.map_some, List.get_eq_getElem] at hid ⊢
    simp [hid]
  · intro hnone
    unfold transition_issue_by_name
    rw [List.find?_eq_none.mpr (fun t ht => by simpa using hnone t ht)]
    rfl

/-- Witness for the amended C3: "done" matches the transition named
"Done" case-insensitively, and "Foo" matches nothing. -/
theorem C3_transition_by_name_witness :
    transition_issue_by_name [⟨"31", "Done"⟩] "done" none none =
      .ok ⟨"31", none, none⟩ ∧
    transition_issue_by_name [⟨"31", "Done"⟩] "Foo" none none =
      .error (.valueErr ("Transition \x27Foo\x27 not found. Available transitions: " ++
        String.intercalate ", "
          (([⟨"31", "Done"⟩] : List IssueTransition).map (fun t => t.name)))) := by
  constructor
  · exact (C3_transition_by_name "done" [⟨"31", "Done"⟩] none none).1 0 (by decide)
      (by decide) (fun j hj hji => absurd hji (by omega)) (by decide)
  · exact (C3_transition_by_name "Foo" [⟨"31", "Done"⟩] none none).2 (by decide)

/-- Decoding a list of JSON strings back to the strings always
succeeds. -/
theorem decodeStrings_map_str (ss : List String) :
    decodeStrings (ss.map JVal.str) = some ss := by
  induction ss with
  | nil => rfl
  | cons a as ih => simp [decodeStrings, ih]

/-- C2: the transport's status classification — 401, 403, 404, 400
(with the errorMessages join and the "Bad request" fallback), 429,
any 5xx, the 204/empty-body empty success object, and the decode
failure (a status-code-less base error distinct from each of the six
status-mapped errors) for a success response whose body does not
parse as JSON. -/
theorem C2_status_classification (r : HttpResponse) :
    (r.status = 401 → make_request r =
      .error (.jira (mkJiraAuthenticationError "Invalid credentials or expired token"))) ∧
    (r.status = 403 → make_request r =
      .error (.jira (mkJiraPermissionError "Insufficient permissions for this operation"))) ∧
    (r.status = 404 → make_request r =
      .error (.jira (mkJiraNotFoundError "Resource not found"))) ∧
    (∀ fs ss, r.status = 400 → r.body = .json (.obj fs) →
      fs.lookup "errorMessages" = some (JVal.arr (ss.map JVal.str)) →
      make_request r =
        .error (.jira (mkJiraValidationError (String.intercalate "; " ss)))) ∧
    (r.status = 400 → r.body = .empty → make_request r =
      .error (.jira (mkJiraValidationError "Bad request"))) ∧
    (∀ t, r.status = 400 → r.body = .malformed t → make_request r =
      .error (.jira (mkJiraValidationError "Bad request"))) ∧
    (∀ fs, r.status = 400 → r.body = .json (.obj fs) →
      fs.lookup "errorMessages" = none →
      make_request r = .error (.jira (mkJiraValidationError "Bad request"))) ∧
    (r.status = 429 → make_request r =
      .error (.jira (mkJiraRateLimitError "Rate limit exceeded"))) ∧
    (r.status ≥ 500 → make_request r =
      .error (.jira (mkJiraServerError ("Server error: " ++ toString r.status)))) ∧
    (r.status = 204 → make_request r = .ok (JVal.obj [])) ∧
    (r.status < 400 → r.body = .empty → make_request r = .ok (JVal.obj [])) ∧
    (∀ t, 200 ≤ r.status → r.status < 300 → r.status ≠ 204 → r.body = .malformed t →
      make_request r =
        .error (.jira (mkJiraAPIError ("Failed to parse response JSON: " ++ t) none)) ∧
      (mkJiraAPIError ("Failed to parse response JSON: " ++ t) none).statusCode = none ∧
      (∀ m, mkJiraAPIError ("Failed to parse response JSON: " ++ t) none ≠
        mkJiraAuthenticationError m) ∧
      (∀ m, mkJiraAPIError ("Failed to parse response JSON: " ++ t) none ≠
        mkJiraPermissionError m) ∧
      (∀ m, mkJiraAPIError ("Failed to parse response JSON: " ++ t) none ≠
        mkJiraNotFoundError m) ∧
      (∀ m, mkJiraAPIError ("Failed to parse response JSON: " ++ t) none ≠
        mkJiraValidationError m) ∧
      (∀ m, mkJiraAPIError ("Failed to parse response JSON: " ++ t) none ≠
        mkJiraRateLimitError m) ∧
      (∀ m, mkJiraAPIError ("Failed to parse response JSON: " ++ t) none ≠
        mkJiraServerError m)) := by
  obtain ⟨st, body⟩ := r
  dsimp only
  refine ⟨fun h => ?_, fun h => ?_, fun h => ?_, fun fs ss h hb hl => ?_,
          fun h hb => ?_, fun t h hb => ?_, fun fs h hb hl => ?_, fun h => ?_,
          fun h => ?_, fun h => ?_, fun h hb => ?_, fun t h2 h3 h4 hb => ?_⟩
  · subst h; rfl
  · subst h; rfl
  · subst h; rfl
  · subst h; subst hb
    simp [make_request, extractErrorMsg, hl, decodeStrings_map_str]
  · subst h; subst hb; rfl
  · subst h; subst hb; rfl
  · subst h; subst hb
    simp [make_request, extractErrorMsg, hl]
  · subst h; rfl
  · have h1 : st ≠ 401 := by omega
    have h2 : st ≠ 403 := by omega
    have h3 : st ≠ 404 := by omega
    have h4 : st ≠ 400 := by omega
    have h5 : st ≠ 429 := by omega
    simp [make_request, h1, h2, h3, h4, h5, h]
  · subst h; cases body <;> rfl
  · subst hb
    have h1 : st ≠ 401 := by omega
    have h2 : st ≠ 403 := by omega
    have h3 : st ≠ 404 := by omega
    have h4 : st ≠ 400 := by omega
    have h5 : st ≠ 429 := by omega
    have h6 : ¬ st ≥ 500 := by omega
    have h7 : ¬ st ≥ 400 := by omega
    simp [make_request, h1, h2, h3, h4, h5, h6, h7]
  · subst hb
    have h1 : st ≠ 401 := by omega
    have h5 : st ≠ 403 := by omega
    have h6 : st ≠ 404 := by omega
    have h7 : st ≠ 400 := by omega
    have h8 : st ≠ 429 := by omega
    have h9 : ¬ st ≥ 500 := by omega
    have h10 : ¬ st ≥ 400 := by omega
    refine ⟨by simp [make_request, h1, h5, h6, h7, h8, h9, h10, h4], rfl,
      fun m => ?_, fun m => ?_, fun m => ?_, fun m => ?_, fun m => ?_, fun m => ?_⟩ <;>
      simp [mkJiraAPIError, mkJiraAuthenticationError, mkJiraPermissionError,
            mkJiraNotFoundError, mkJiraValidationError, mkJiraRateLimitError,
            mkJiraServerError]

/-- Witness for C2 across the branch families: 401, 400 with an
errorMessages list, 400 with an empty body, 429, 503, 204, an empty
200 body, and a 200 body that fails to parse. -/
theorem C2_status_classification_witness :
    make_request ⟨401, .empty⟩ =
      .error (.jira (mkJiraAuthenticationError "Invalid credentials or expired token")) ∧
    make_request ⟨403, .empty⟩ =
      .error (.jira (mkJiraPermissionError "Insufficient permissions for this operation")) ∧
    make_request ⟨404, .empty⟩ =
      .error (.jira (mkJiraNotFoundError "Resource not found")) ∧
    make_request ⟨400, .json (.obj [("errorMessages",
        JVal.arr [JVal.str "a", JVal.str "b"])])⟩ =
      .error (.jira (mkJiraValidationError (String.intercalate "; " ["a", "b"]))) ∧
    make_request ⟨400, .empty⟩ =
      .error (.jira (mkJiraValidationError "Bad request")) ∧
    make_request ⟨429, .empty⟩ =
      .error (.jira (mkJiraRateLimitError "Rate limit exceeded")) ∧
    make_request ⟨503, .empty⟩ =
      .error (.jira (mkJiraServerError ("Server error: " ++ toString 503))) ∧
    make_request ⟨204, .json (.obj [("k", JVal.null)])⟩ = .ok (JVal.obj []) ∧
    make_request ⟨200, .empty⟩ = .ok (JVal.obj []) ∧
    make_request ⟨200, .malformed "boom"⟩ =
      .error (.jira (mkJiraAPIError ("Failed to parse response JSON: " ++ "boom") none)) := by
  refine ⟨(C2_status_classification ⟨401, .empty⟩).1 rfl,
    (C2_status_classification ⟨403, .empty⟩).2.1 rfl,
    (C2_status_classification ⟨404, .empty⟩).2.2.1 rfl,
    (C2_status_classification ⟨400, _⟩).2.2.2.1
      [("errorMessages", JVal.arr [JVal.str "a", JVal.str "b"])] ["a", "b"] rfl rfl rfl,
    (C2_status_classification ⟨400, .empty⟩).2.2.2.2.1 rfl rfl,
    (C2_status_classification ⟨429, .empty⟩).2.2.2.2.2.2.2.1 rfl,
    (C2_status_classification ⟨503, .empty⟩).2.2.2.2.2.2.2.2.1 (by decide),
    (C2_status_classification ⟨204, .json (.obj [("k", JVal.null)])⟩).2.2.2.2.2.2.2.2.2.1 rfl,
    (C2_status_classification ⟨200, .empty⟩).2.2.2.2.2.2.2.2.2.2.1 (by decide) rfl,
    ((C2_status_classification ⟨200, .malformed "boom"⟩).2.2.2.2.2.2.2.2.2.2.2 "boom"
      (by decide) (by decide) (by decide) rfl).1⟩

end JiraSpec
